import Mathlib

/-!
Shallow embedding of `src/static/script.js`, the browser client of the
connect4-negamax repository, together with proofs about the claims of its
specification. The client keeps four global state variables, issues two
kinds of GET requests (`/newgame`, `/makemove`), and repaints a canvas from
each successful response.
-/

namespace Connect4Client

/-- `var slot_pixels = 60;` — the fixed cell size in pixels. -/
def slot_pixels : Int := 60

/-- The four global game-state variables of `script.js`:
`game_id`, `num_rows`, `num_columns`, `active_game`. -/
structure Session where
  game_id : String
  num_rows : Nat
  num_columns : Nat
  active_game : Bool
deriving Repr, DecidableEq

/-- The initial values of the globals:
`game_id = "0", num_rows = 0, num_columns = 0, active_game = false`. -/
def initialSession : Session := ⟨"0", 0, 0, false⟩

/-- The fields of a `/newgame` response body that the client reads. -/
structure NewGameResp where
  GameId : String
  NumRows : Nat
  NumColumns : Nat
  Board : List String
  Prompt : String
deriving Repr, DecidableEq

/-- The fields of a `/makemove` response body that the client reads. -/
structure MoveResp where
  GameOver : Bool
  Board : List String
  Prompt : String
deriving Repr, DecidableEq

/-- The fields `renderBoard` actually reads from its `resp` argument:
only `resp["Board"]` and `resp["Prompt"]`. -/
structure RenderResp where
  Board : List String
  Prompt : String
deriving Repr, DecidableEq

/-- Projection of a `/newgame` response to what `renderBoard` reads. -/
def NewGameResp.toRender (r : NewGameResp) : RenderResp := ⟨r.Board, r.Prompt⟩

/-- Projection of a `/makemove` response to what `renderBoard` reads. -/
def MoveResp.toRender (r : MoveResp) : RenderResp := ⟨r.Board, r.Prompt⟩

/-- Hex digit as produced by JavaScript `escape` (uppercase). -/
def hexDigit (n : Nat) : Char :=
  if n < 10 then Char.ofNat (48 + n) else Char.ofNat (55 + n)

/-- Two-digit uppercase hex of a byte, for `%XX` escapes. -/
def hexByte (n : Nat) : String :=
  String.mk [hexDigit (n / 16 % 16), hexDigit (n % 16)]

/-- Four-digit uppercase hex, for `%uXXXX` escapes. -/
def hexQuad (n : Nat) : String :=
  String.mk [hexDigit (n / 4096 % 16), hexDigit (n / 256 % 16),
             hexDigit (n / 16 % 16), hexDigit (n % 16)]

/-- The characters JavaScript `escape` leaves untouched:
ASCII letters, digits, and `@ * _ + - . /`. -/
def escapeKeeps (c : Char) : Bool :=
  c.isAlphanum || c = '@' || c = '*' || c = '_' || c = '+' ||
    c = '-' || c = '.' || c = '/'

/-- JavaScript's `escape(string)`: kept characters pass through, other code
units below 256 become `%XX`, the rest become `%uXXXX`. -/
def jsEscape (s : String) : String :=
  String.join (s.data.map (fun c =>
    if escapeKeeps c then String.singleton c
    else if c.toNat < 256 then "%" ++ hexByte c.toNat
    else "%u" ++ hexQuad c.toNat))

/-- The fill color chosen by the `switch` in `renderBoard`: the cell content
is compared against `'X'` then `'O'`, anything else falls to the default.
A read past the end of the `Board` array yields JavaScript `undefined`,
modelled as `none`. -/
def cellColor (cell : Option String) : String :=
  if cell = some "X" then "#f06666"
  else if cell = some "O" then "#6686f0"
  else "#DCDCDC"

/-- One filled circle drawn by `context.arc` + `context.fill`:
center coordinates, radius, and fill style. -/
structure Marker where
  cx : Int
  cy : Int
  radius : Int
  color : String
deriving Repr, DecidableEq

/-- The marker drawn for `(row_index, col_index)`: center at
`(slot_pixels/2 + col*slot_pixels, slot_pixels/2 + row*slot_pixels)`,
radius `slot_pixels/2 - 2`, color from `Board[num_columns*row + col]`. -/
def drawMarker (board : List String) (cols row col : Nat) : Marker :=
  { cx := slot_pixels / 2 + (col : Int) * slot_pixels
  , cy := slot_pixels / 2 + (row : Int) * slot_pixels
  , radius := slot_pixels / 2 - 2
  , color := cellColor board[cols * row + col]? }

/-- The visual output of one `renderBoard` call: the prompt text, the canvas
dimensions, and the list of drawn markers in drawing order. -/
structure RenderOutput where
  promptText : String
  canvasWidth : Int
  canvasHeight : Int
  markers : List Marker
deriving Repr, DecidableEq

/-- `renderBoard(resp)`: sets the prompt from `resp["Prompt"]`, resizes the
canvas to `num_columns*slot_pixels × num_rows*slot_pixels` (which clears it),
then draws one marker per `(row_index, col_index)` pair, the row loop outside
and the column loop inside. It reads the globals `num_rows` and `num_columns`
from the session, not from the response. -/
def renderBoard (s : Session) (resp : RenderResp) : RenderOutput :=
  { promptText := resp.Prompt
  , canvasWidth := (s.num_columns : Int) * slot_pixels
  , canvasHeight := (s.num_rows : Int) * slot_pixels
  , markers := (List.range s.num_rows).flatMap (fun row =>
      (List.range s.num_columns).map (fun col =>
        drawMarker resp.Board s.num_columns row col)) }

/-- Assigning canvas dimensions clears the drawing surface and `renderBoard`
overwrites the prompt and repaints every cell, so the visual state after a
call does not depend on the visual state before it: the prior output `w` is
discarded. -/
def renderApply (_w : RenderOutput) (s : Session) (resp : RenderResp) :
    RenderOutput :=
  renderBoard s resp

/-- The URL `newGame` opens: `'/newgame' + formatted_params`, where
`formatted_params` is `'?game_id' + escape(game_id)` when
`game_id != '0' && active_game`, and `''` otherwise. Note the source
concatenates `'?game_id'` with the escaped id with no `=` between them. -/
def newGameRequestUrl (s : Session) : String :=
  "/newgame" ++
    (if s.game_id ≠ "0" ∧ s.active_game = true
      then "?game_id" ++ jsEscape s.game_id else "")

/-- The `onreadystatechange` handler installed by `newGame`: on
`readyState == 4 && status == 200` it overwrites all four globals from the
response (`active_game = true`) and calls `renderBoard`; otherwise it does
nothing. -/
def handleNewGameResponse (s : Session) (readyState status : Nat)
    (resp : NewGameResp) : Session × Option RenderOutput :=
  if readyState = 4 ∧ status = 200 then
    let s' : Session := ⟨resp.GameId, resp.NumRows, resp.NumColumns, true⟩
    (s', some (renderBoard s' resp.toRender))
  else (s, none)

/-- The URL `makeMove` opens:
`'/makemove?game_id=' + escape(game_id) + '&column_index=' + col_index`. -/
def makeMoveRequestUrl (s : Session) (col_index : Int) : String :=
  "/makemove?game_id=" ++ jsEscape s.game_id ++ "&column_index=" ++
    toString col_index

/-- The prompt text `makeMove` sets synchronously, before any response:
`"Player move in column " + (col_index + 1) + ". Computer thinking..."`. -/
def makeMovePendingPrompt (col_index : Int) : String :=
  "Player move in column " ++ toString (col_index + 1) ++
    ". Computer thinking..."

/-- The `onreadystatechange` handler installed by `makeMove`: on
`readyState == 4 && status == 200` it sets `active_game = !resp['GameOver']`
and calls `renderBoard`; otherwise it does nothing. -/
def handleMoveResponse (s : Session) (readyState status : Nat)
    (resp : MoveResp) : Session × Option RenderOutput :=
  if readyState = 4 ∧ status = 200 then
    let s' : Session := { s with active_game := !resp.GameOver }
    (s', some (renderBoard s' resp.toRender))
  else (s, none)

/-- `Math.floor((event.pageX - canvas.offsetLeft) / slot_pixels)`.
Pixel coordinates are JavaScript numbers; they are modelled as rationals
and `Math.floor` as `Int.floor`. -/
def clickColIndex (pageX offsetLeft : ℚ) : Int :=
  ⌊(pageX - offsetLeft) / (slot_pixels : ℚ)⌋

/-- The synchronous effects of the board click listener (and of the
`makeMove` call it makes): the resulting globals, the column passed to
`makeMove` (if any), the request URL issued (if any), and the new prompt
text (if changed). -/
structure ClickResult where
  session : Session
  moveColumn : Option Int
  request : Option String
  promptText : Option String
deriving Repr, DecidableEq

/-- The click listener on `gameBoard`: returns immediately when
`!active_game`; otherwise computes the column index from the click
coordinate and calls `makeMove`, which issues the request and sets the
pending prompt. No global is assigned synchronously. -/
def boardClick (s : Session) (pageX offsetLeft : ℚ) : ClickResult :=
  if s.active_game = false then ⟨s, none, none, none⟩
  else
    let col_index := clickColIndex pageX offsetLeft
    ⟨s, some col_index, some (makeMoveRequestUrl s col_index),
      some (makeMovePendingPrompt col_index)⟩

/-! ## Helper lemmas about the marker list -/

/-- Indexing the concatenation of `c`-long blocks: element `k * c + col` of
`l.flatMap (fun a => (range c).map (f a))` is `f a col` for the `k`-th
element `a` of `l`. -/
theorem flatMap_range_getElem {α β : Type} (l : List α) (c : Nat)
    (f : α → Nat → β) (col : Nat) (hc : col < c) :
    ∀ k, (l.flatMap fun a => (List.range c).map (f a))[k * c + col]? =
      (l[k]?).map (fun a => f a col) := by
  induction l with
  | nil => intro k; simp
  | cons a l ih =>
    intro k
    rw [List.flatMap_cons, List.getElem?_append]
    cases k with
    | zero =>
      have hlt : 0 * c + col < ((List.range c).map (f a)).length := by
        simpa using hc
      rw [if_pos hlt]
      simp [List.getElem?_map, List.getElem?_range hc]
    | succ k =>
      have hc1 : c ≤ (k + 1) * c := Nat.le_mul_of_pos_left c (Nat.succ_pos k)
      have hge : ¬ (k + 1) * c + col < ((List.range c).map (f a)).length := by
        simp only [List.length_map, List.length_range]
        exact Nat.not_lt.mpr (le_trans hc1 (Nat.le_add_right _ _))
      rw [if_neg hge]
      have heq : (k + 1) * c + col - ((List.range c).map (f a)).length
          = k * c + col := by
        simp only [List.length_map, List.length_range, Nat.succ_mul]
        rw [Nat.add_right_comm, Nat.add_sub_cancel]
      rw [heq, ih k]
      simp

/-- `renderBoard` always draws `num_rows * num_columns` markers. -/
theorem renderBoard_markers_length (s : Session) (resp : RenderResp) :
    (renderBoard s resp).markers.length = s.num_rows * s.num_columns := by
  simp [renderBoard, List.length_flatMap, Function.comp_def, List.map_const',
    List.sum_replicate, smul_eq_mul]

/-- The marker at list position `row * num_columns + col` is the one drawn
for the `(row, col)` cell. -/
theorem renderBoard_marker_at (s : Session) (resp : RenderResp)
    (row col : Nat) (h1 : row < s.num_rows) (h2 : col < s.num_columns) :
    (renderBoard s resp).markers[row * s.num_columns + col]? =
      some (drawMarker resp.Board s.num_columns row col) := by
  have h := flatMap_range_getElem (List.range s.num_rows) s.num_columns
    (fun r c => drawMarker resp.Board s.num_columns r c) col h2 row
  simp only [renderBoard]
  rw [h]
  simp [List.getElem?_range h1]

/-! ## Claims -/

/-- C1 (code bug): `newGame` during an active game is meant to send
`/newgame?game_id=<id>`, but the source concatenates `'?game_id'` and the
escaped id without an `=`, so with `game_id = "7"` and an active game the
request URL is `/newgame?game_id7`, not `/newgame?game_id=7` — the
`game_id` query parameter the server needs is never actually formed. -/
theorem c1_newgame_url_missing_equals :
    newGameRequestUrl ⟨"7", 6, 7, true⟩ = "/newgame?game_id7" ∧
    newGameRequestUrl ⟨"7", 6, 7, true⟩ ≠ "/newgame?game_id=7" := by
  constructor
  · rfl
  · decide

/-- C2 counterexample: `renderBoard` is not a function of the server
response alone — it reads the global `num_rows`/`num_columns`. Two
invocations with the identical response but different session dimensions
produce different visual output (here, different canvas heights and marker
counts). -/
theorem c2_counterexample :
    renderBoard ⟨"g", 1, 1, true⟩ ⟨["X"], "p"⟩ ≠
      renderBoard ⟨"g", 2, 1, true⟩ ⟨["X"], "p"⟩ := by
  decide

/-- C2 (amended): `renderBoard` is a deterministic function of the server
response and the session board dimensions, with no internal state: its
output does not depend on the previously painted output, and applying it
twice with the same session and response gives the same visual result as
applying it once. -/
theorem c2_render_deterministic_stateless (w w' : RenderOutput)
    (s : Session) (resp : RenderResp) :
    renderApply w s resp = renderApply w' s resp ∧
    renderApply (renderApply w s resp) s resp = renderApply w s resp :=
  ⟨rfl, rfl⟩

/-- C3: `renderBoard` draws exactly `num_rows * num_columns` markers, one
per `(row, col)` pair in row-major order: the marker at drawing position
`row * num_columns + col` is centered in cell `(row, col)` and colored
from the board element at that same index. -/
theorem c3_render_markers_row_major (s : Session) (resp : RenderResp)
    (row col : Nat) (h1 : row < s.num_rows) (h2 : col < s.num_columns) :
    (renderBoard s resp).markers.length = s.num_rows * s.num_columns ∧
    (renderBoard s resp).markers[row * s.num_columns + col]? =
      some { cx := slot_pixels / 2 + (col : Int) * slot_pixels
           , cy := slot_pixels / 2 + (row : Int) * slot_pixels
           , radius := slot_pixels / 2 - 2
           , color := cellColor resp.Board[row * s.num_columns + col]? } := by
  refine ⟨renderBoard_markers_length s resp, ?_⟩
  rw [renderBoard_marker_at s resp row col h1 h2, drawMarker,
    Nat.mul_comm s.num_columns row]

/-- Witness for C3 at a concrete 2×3 session and a full board: the marker
drawn fifth (position `1 * 3 + 2`) is the one for cell `(1, 2)`. -/
theorem c3_witness :
    1 < 2 ∧ 2 < 3 ∧
    ((renderBoard ⟨"g", 2, 3, true⟩
        ⟨["X", "O", "E", "X", "O", "E"], "p"⟩).markers.length = 2 * 3 ∧
      (renderBoard ⟨"g", 2, 3, true⟩
        ⟨["X", "O", "E", "X", "O", "E"], "p"⟩).markers[1 * 3 + 2]? =
        some { cx := slot_pixels / 2 + ((2 : Nat) : Int) * slot_pixels
             , cy := slot_pixels / 2 + ((1 : Nat) : Int) * slot_pixels
             , radius := slot_pixels / 2 - 2
             , color := cellColor
                 (["X", "O", "E", "X", "O", "E"] : List String)[1 * 3 + 2]? }) :=
  ⟨by decide, by decide,
    c3_render_markers_row_major ⟨"g", 2, 3, true⟩
      ⟨["X", "O", "E", "X", "O", "E"], "p"⟩ 1 2 (by decide) (by decide)⟩

/-- C4: the fill color is a pure function of the cell content alone:
`'X'` maps to the red `#f06666`, `'O'` maps to the blue `#6686f0`, and any
other content — an unrecognized string or a missing cell — maps to the
grey `#DCDCDC`. -/
theorem c4_cell_color_mapping :
    cellColor (some "X") = "#f06666" ∧
    cellColor (some "O") = "#6686f0" ∧
    ∀ v : Option String, v ≠ some "X" → v ≠ some "O" →
      cellColor v = "#DCDCDC" := by
  refine ⟨rfl, rfl, ?_⟩
  intro v h1 h2
  simp [cellColor, h1, h2]

/-- Witness for C4 at the missing-cell value `none`. -/
theorem c4_witness :
    ((none : Option String) ≠ some "X") ∧
    ((none : Option String) ≠ some "O") ∧
    cellColor none = "#DCDCDC" :=
  ⟨by decide, by decide,
    c4_cell_color_mapping.2.2 none (by decide) (by decide)⟩

/-- C5: on a successful (`readyState 4`, status `200`) new-game response,
the whole session is replaced by the server-supplied values and
`active_game` becomes `true`, whatever the prior session was. -/
theorem c5_newgame_success_replaces_session (s : Session)
    (resp : NewGameResp) :
    (handleNewGameResponse s 4 200 resp).1 =
      ⟨resp.GameId, resp.NumRows, resp.NumColumns, true⟩ := by
  simp [handleNewGameResponse]

/-- C6: on a successful move response, `active_game` becomes the negation
of the response's `GameOver` flag, whatever the prior session was. -/
theorem c6_move_success_active_flag (s : Session) (resp : MoveResp) :
    (handleMoveResponse s 4 200 resp).1.active_game = !resp.GameOver := by
  simp [handleMoveResponse]

/-- C7: whenever the game is active, the column passed to `makeMove` by
the board click listener is `⌊(pageX - offsetLeft) / 60⌋`; in particular a
click at `x = 125` with offset `0` selects column `2`. -/
theorem c7_click_column_floor :
    (∀ (s : Session) (pageX offsetLeft : ℚ),
      (boardClick { s with active_game := true } pageX offsetLeft).moveColumn
        = some ⌊(pageX - offsetLeft) / 60⌋) ∧
    (boardClick { initialSession with active_game := true } 125 0).moveColumn
      = some 2 := by
  constructor
  · intro s pageX offsetLeft
    simp [boardClick, clickColIndex, slot_pixels]
  · simp only [boardClick, clickColIndex, initialSession]
    norm_num [slot_pixels, Int.floor_eq_iff]

/-- C8: a board click while `active_game` is false is a complete no-op: no
column is computed, no request is sent, the prompt is untouched and the
session is unchanged. -/
theorem c8_inactive_click_noop (s : Session) (pageX offsetLeft : ℚ) :
    boardClick { s with active_game := false } pageX offsetLeft =
      ⟨{ s with active_game := false }, none, none, none⟩ := by
  simp [boardClick]

/-- C9: any response outcome other than `readyState 4` with status `200`
leaves both handlers as silent no-ops: the session is returned unchanged
and nothing is rendered. -/
theorem c9_failure_response_noop (s : Session) (readyState status : Nat)
    (r1 : NewGameResp) (r2 : MoveResp)
    (h : ¬(readyState = 4 ∧ status = 200)) :
    handleNewGameResponse s readyState status r1 = (s, none) ∧
    handleMoveResponse s readyState status r2 = (s, none) := by
  refine ⟨?_, ?_⟩ <;>
    simp only [handleNewGameResponse, handleMoveResponse] <;>
    rw [if_neg h]

/-- Witness for C9: a completed response with HTTP status 500 changes
nothing. -/
theorem c9_witness :
    ¬((4 : Nat) = 4 ∧ (500 : Nat) = 200) ∧
    (handleNewGameResponse initialSession 4 500 ⟨"1", 6, 7, [], "p"⟩ =
        (initialSession, none) ∧
      handleMoveResponse initialSession 4 500 ⟨false, [], "p"⟩ =
        (initialSession, none)) :=
  ⟨by decide,
    c9_failure_response_noop initialSession 4 500 ⟨"1", 6, 7, [], "p"⟩
      ⟨false, [], "p"⟩ (by decide)⟩

/-- C10: when the response's board is shorter than
`num_rows * num_columns`, `renderBoard` still draws all
`num_rows * num_columns` markers, and every cell whose index is past the
end of the board reads `undefined` (`none`) and is painted the neutral
grey `#DCDCDC`. -/
theorem c10_short_board_grey (s : Session) (resp : RenderResp)
    (hshort : resp.Board.length < s.num_rows * s.num_columns)
    (row col : Nat) (h1 : row < s.num_rows) (h2 : col < s.num_columns)
    (hpast : resp.Board.length ≤ row * s.num_columns + col) :
    (renderBoard s resp).markers.length = s.num_rows * s.num_columns ∧
    (renderBoard s resp).markers[row * s.num_columns + col]? =
      some { cx := slot_pixels / 2 + (col : Int) * slot_pixels
           , cy := slot_pixels / 2 + (row : Int) * slot_pixels
           , radius := slot_pixels / 2 - 2
           , color := "#DCDCDC" } := by
  refine ⟨renderBoard_markers_length s resp, ?_⟩
  rw [renderBoard_marker_at s resp row col h1 h2, drawMarker,
    Nat.mul_comm s.num_columns row,
    List.getElem?_eq_none hpast]
  rfl

/-- Witness for C10: a 2×2 session with a one-cell board; cell `(1, 1)`
reads past the board's end and is drawn grey. -/
theorem c10_witness :
    (["X"] : List String).length < 2 * 2 ∧ 1 < 2 ∧ 1 < 2 ∧
    (["X"] : List String).length ≤ 1 * 2 + 1 ∧
    ((renderBoard ⟨"g", 2, 2, true⟩ ⟨["X"], "p"⟩).markers.length = 2 * 2 ∧
      (renderBoard ⟨"g", 2, 2, true⟩ ⟨["X"], "p"⟩).markers[1 * 2 + 1]? =
        some { cx := slot_pixels / 2 + ((1 : Nat) : Int) * slot_pixels
             , cy := slot_pixels / 2 + ((1 : Nat) : Int) * slot_pixels
             , radius := slot_pixels / 2 - 2
             , color := "#DCDCDC" }) :=
  ⟨by decide, by decide, by decide, by decide,
    c10_short_board_grey ⟨"g", 2, 2, true⟩ ⟨["X"], "p"⟩ (by decide) 1 1
      (by decide) (by decide) (by decide)⟩

end Connect4Client
